import Mathlib

/-!
Verification of the primary-process supervisor of the cage kiosk
compositor (src/cage.c) against its natural-language specification.

The embedding models, faithfully to the C source:
  * the glibc wait-status macros and the exit-status translation performed
    by `cleanup_primary_client` (src/cage.c lines 143-160);
  * POSIX process credentials and `drop_permissions` (lines 162-185);
  * the pipe/fork/exec sequence of `spawn_primary_client` (lines 100-141)
    together with the per-process descriptor-flag state of the two pipe
    ends, as a trace of the actions each branch performs;
  * the `wl_display_run` event loop as seen by cage: the sequence of
    callback invocations (`sigchld_handler`, `handle_signal`) that occur
    before the loop stops;
  * the overall control flow of `main` (lines 259-344).
-/

set_option maxRecDepth 4096

namespace Cage

/-! ### Wait-status encoding (glibc macros, `<sys/wait.h>`) -/

/-- C `(signed char)` cast of a value, as a mathematical integer. -/
def signedChar (v : Nat) : Int :=
  if v % 256 < 128 then ((v % 256 : Nat) : Int) else ((v % 256 : Nat) : Int) - 256

/-- glibc `WIFEXITED(status)`: `(status & 0x7f) == 0`. -/
def wIFEXITED (status : Nat) : Bool :=
  status &&& 0x7f == 0

/-- glibc `WEXITSTATUS(status)`: `(status & 0xff00) >> 8`. -/
def wEXITSTATUS (status : Nat) : Nat :=
  (status &&& 0xff00) >>> 8

/-- glibc `WTERMSIG(status)`: `status & 0x7f`. -/
def wTERMSIG (status : Nat) : Nat :=
  status &&& 0x7f

/-- glibc `WIFSIGNALED(status)`: `((signed char)(((status & 0x7f) + 1) >> 1)) > 0`,
where the right shift of the sign-extended byte is arithmetic (floor division
by two). -/
def wIFSIGNALED (status : Nat) : Bool :=
  decide (0 < (signedChar ((status &&& 0x7f) + 1)).fdiv 2)

/-- Kernel encoding of the wait status of a child that called `exit(n)`:
the low byte of `n` shifted into bits 8..15. -/
def exitStatus (n : Nat) : Nat :=
  (n % 256) * 256

/-- Kernel encoding of the wait status of a child killed by signal `s`
(without a core dump): the signal number in the low seven bits. -/
def signalStatus (s : Nat) : Nat :=
  s % 128

/-- The status translation of `cleanup_primary_client` (src/cage.c lines
143-160), applied to the status value that the blocking `waitpid` call
reported: a normal exit yields `WEXITSTATUS`, death by signal yields
`128 + WTERMSIG`, anything else yields 0. -/
def cleanup_primary_client (status : Nat) : Nat :=
  if wIFEXITED status then wEXITSTATUS status
  else if wIFSIGNALED status then 128 + wTERMSIG status
  else 0

/-! ### Process credentials and `drop_permissions` -/

/-- POSIX process credentials: real, effective and saved user and group
identifiers. -/
structure Creds where
  ruid : Nat
  euid : Nat
  suid : Nat
  rgid : Nat
  egid : Nat
  sgid : Nat
deriving DecidableEq, Repr

/-- POSIX `setuid(2)`: a privileged process (effective uid 0) sets all
three uids; an unprivileged one may only switch its effective uid to its
real or saved uid. Returns the C result (0 or -1) and the new credentials. -/
def sys_setuid (c : Creds) (u : Nat) : Int × Creds :=
  if c.euid = 0 then (0, { c with ruid := u, euid := u, suid := u })
  else if u = c.ruid ∨ u = c.suid then (0, { c with euid := u })
  else (-1, c)

/-- POSIX `setgid(2)`, analogous to `sys_setuid`; privilege is determined
by the effective uid. -/
def sys_setgid (c : Creds) (g : Nat) : Int × Creds :=
  if c.euid = 0 then (0, { c with rgid := g, egid := g, sgid := g })
  else if g = c.rgid ∨ g = c.sgid then (0, { c with egid := g })
  else (-1, c)

/-- The final check of `drop_permissions` (src/cage.c lines 178-182):
`if (setgid(0) != -1 || setuid(0) != -1)` refuse to start, with C
short-circuit evaluation (`setuid(0)` runs only when `setgid(0)`
returned -1). -/
def restoreRootCheck (c : Creds) : Bool × Creds :=
  let g := sys_setgid c 0
  if g.1 ≠ -1 then (false, g.2)
  else
    let u := sys_setuid g.2 0
    if u.1 ≠ -1 then (false, u.2) else (true, u.2)

/-- `drop_permissions` (src/cage.c lines 162-185). Running with real uid
or gid 0 is allowed outright. Otherwise, when real and effective ids
differ, the code attempts `setgid(getgid())` then `setuid(getuid())`
(short-circuit: the second call runs only if the first returned 0) and
refuses to start if either fails. Finally it refuses to start if root can
be restored. -/
def drop_permissions (c0 : Creds) : Bool × Creds :=
  if c0.ruid = 0 ∨ c0.rgid = 0 then (true, c0)
  else if c0.ruid ≠ c0.euid ∨ c0.rgid ≠ c0.egid then
    let p1 := sys_setgid c0 c0.rgid
    if p1.1 ≠ 0 then (false, p1.2)
    else
      let p2 := sys_setuid p1.2 p1.2.ruid
      if p2.1 ≠ 0 then (false, p2.2)
      else restoreRootCheck p2.2
  else restoreRootCheck c0

/-! ### Helper lemmas on the status translation -/

/-- On every status encoding a normal exit with code below 256, the
translation returns that code unchanged. -/
lemma cleanup_exit_all : ∀ n < 256, cleanup_primary_client (exitStatus n) = n := by
  decide

/-- On every status encoding death by a signal numbered 1..126, the
translation returns 128 plus the signal number. -/
lemma cleanup_signal_all : ∀ s < 127, 1 ≤ s → cleanup_primary_client (signalStatus s) = 128 + s := by
  decide

/-- A low seven-bit field that is neither 0 (normal exit) nor classified
as a signal death by `WIFSIGNALED` must be 127. -/
lemma low7_not_exited_not_signaled :
    ∀ v < 128, (v == 0) = false →
      decide (0 < (signedChar (v + 1)).fdiv 2) = false → v = 127 := by
  decide

/-! ### The death pipe and `spawn_primary_client`

Each pipe end is tracked per process, together with its `FD_CLOEXEC`
flag; `fork` copies the table, `fcntl` in one process leaves the other
process's copy untouched, and `execvp` closes exactly the flagged
descriptors. `spawn_primary_client` is embedded as a function of the
outcomes of the fallible calls it makes (`pipe`, `fork`, the two `fcntl`
pairs inside `set_cloexec`, `execvp`), returning the parent's trace of
actions, the parent's final descriptor state, and the table the child
inherited at fork time; the child branch is the separate function
`childRun` since it executes in another process. -/

/-- State of one pipe descriptor in one process's descriptor table. -/
inductive FdState
  | closed
  | opened (cloexec : Bool)
deriving DecidableEq, Repr

/-- Whether the descriptor is present (open) in the table. -/
def FdState.isOpen : FdState → Bool
  | .closed => false
  | .opened _ => true

/-- The two ends of the death pipe in one process's descriptor table. -/
structure PipeFds where
  readEnd : FdState
  writeEnd : FdState
deriving DecidableEq, Repr

/-- Effect of `execvp` on a descriptor: a descriptor flagged
`FD_CLOEXEC` is closed, any other is inherited by the new image. -/
def execFilterFd : FdState → FdState
  | .opened true => .closed
  | s => s

/-- Effect of `execvp` on the pipe descriptors of the calling process. -/
def execFilter (f : PipeFds) : PipeFds :=
  ⟨execFilterFd f.readEnd, execFilterFd f.writeEnd⟩

/-- `set_cloexec` (src/cage.c lines 81-98): reads the descriptor flags,
ors in `FD_CLOEXEC` and writes them back. `fcntlOk` is whether both
`fcntl` calls succeed; on failure the function returns false and the
flag is unchanged. -/
def set_cloexec (fcntlOk : Bool) (fd : FdState) : Bool × FdState :=
  if fcntlOk then
    match fd with
    | .opened _ => (true, .opened true)
    | .closed => (true, .closed)
  else (false, fd)

/-- Outcome of the `fork` call. -/
inductive ForkRes
  | failed
  | forked (pid : Nat)
deriving DecidableEq, Repr

/-- Outcomes of the fallible calls made during `spawn_primary_client`:
`pipe`, `fork`, the two `set_cloexec` calls in the parent, and `execvp`
in the child. -/
structure SpawnEnv where
  pipeOk : Bool
  forkRes : ForkRes
  cloexecReadOk : Bool
  cloexecWriteOk : Bool
  execOk : Bool
deriving DecidableEq, Repr

/-- Observable actions of the parent branch of `spawn_primary_client`,
in program order. -/
inductive SpawnAction
  | pipeCreate
  | forkCall
  | recordPid (pid : Nat)
  | setCloexecRead
  | setCloexecWrite
  | closeWriteEnd
  | registerReadFd
  | logError
deriving DecidableEq, Repr

/-- Result of `spawn_primary_client` as seen by the parent: the returned
boolean, the value left in `*pid_out`, the trace of parent actions, the
parent's final pipe-descriptor state, and (when a fork happened) the
descriptor table the child inherited. -/
structure SpawnResult where
  ok : Bool
  pidOut : Nat
  trace : List SpawnAction
  parentFds : PipeFds
  childAtFork : Option PipeFds
deriving DecidableEq, Repr

/-- `spawn_primary_client` (src/cage.c lines 100-141), parent side.
`pidIn` is the caller's current `pid` variable, written through
`pid_out` only once a fork has happened. After `pipe(fd)` both ends are
open with `FD_CLOEXEC` clear. On fork success the parent records the
child pid first, then runs `set_cloexec(fd[0])` and, only if that
succeeded, `set_cloexec(fd[1])` (C short-circuit of `||`); if either
fails it returns false at once. Otherwise it closes the write end,
registers the read end with the event loop and returns true. -/
def spawn_primary_client (env : SpawnEnv) (pidIn : Nat) : SpawnResult :=
  if ¬ env.pipeOk then
    { ok := false, pidOut := pidIn, trace := [.pipeCreate, .logError],
      parentFds := ⟨.closed, .closed⟩, childAtFork := none }
  else
    let fds0 : PipeFds := ⟨.opened false, .opened false⟩
    match env.forkRes with
    | .failed =>
        { ok := false, pidOut := pidIn, trace := [.pipeCreate, .forkCall, .logError],
          parentFds := fds0, childAtFork := none }
    | .forked pid =>
        let tr0 : List SpawnAction := [.pipeCreate, .forkCall, .recordPid pid]
        let r := set_cloexec env.cloexecReadOk fds0.readEnd
        if ¬ r.1 then
          { ok := false, pidOut := pid, trace := tr0 ++ [.setCloexecRead, .logError],
            parentFds := ⟨r.2, fds0.writeEnd⟩, childAtFork := some fds0 }
        else
          let w := set_cloexec env.cloexecWriteOk fds0.writeEnd
          if ¬ w.1 then
            { ok := false, pidOut := pid,
              trace := tr0 ++ [.setCloexecRead, .setCloexecWrite, .logError],
              parentFds := ⟨r.2, w.2⟩, childAtFork := some fds0 }
          else
            { ok := true, pidOut := pid,
              trace := tr0 ++ [.setCloexecRead, .setCloexecWrite, .closeWriteEnd, .registerReadFd],
              parentFds := ⟨r.2, .closed⟩, childAtFork := some fds0 }

/-- Observable actions of the child branch of `spawn_primary_client`,
in program order. -/
inductive ChildAction
  | clearSigMask
  | closeReadEnd
  | execCall
  | logErrno
  | exitCall (code : Nat)
deriving DecidableEq, Repr

/-- Final disposition of the child branch: either the process image was
replaced by the client (with the given surviving pipe descriptors), or
the child terminated via `_exit` with the given code. There is no
"return to the caller" outcome: the child branch never continues into
the supervisor's code. -/
inductive ChildOutcome
  | execed (fds : PipeFds)
  | exited (code : Nat)
deriving DecidableEq, Repr

/-- The child branch of `spawn_primary_client` (src/cage.c lines
110-119): clear the inherited blocked-signal mask (`sigemptyset` +
`sigprocmask(SIG_SETMASK, ...)`), close the pipe's read end, `execvp`.
`execvp` returns only on failure, in which case the child logs the errno
and calls `_exit(1)`. -/
def childRun (fdsAtFork : PipeFds) (execOk : Bool) : ChildOutcome × List ChildAction :=
  let fds1 : PipeFds := { fdsAtFork with readEnd := .closed }
  if execOk then
    (.execed (execFilter fds1), [.clearSigMask, .closeReadEnd, .execCall])
  else
    (.exited 1, [.clearSigMask, .closeReadEnd, .execCall, .logErrno, .exitCall 1])

/-! ### The event loop and `main`

`wl_display_run` is embedded through the sequence of callback
invocations the loop performs before it stops: each death-pipe readiness
event invokes `sigchld_handler`, each delivered SIGINT/SIGTERM invokes
`handle_signal`. The loop state carries the two fields of `cg_server`
that these callbacks touch. -/

/-- A callback invocation performed by the event loop while running. -/
inductive LoopEvent
  | pipeHangup
  | pipeError
  | sigInt
  | sigTerm
deriving DecidableEq, Repr

/-- The slice of `cg_server` mutated by the loop callbacks, plus whether
`wl_display_terminate` has been requested. -/
structure LoopState where
  return_app_code : Bool
  terminated : Bool
deriving DecidableEq, Repr

/-- `sigchld_handler` (src/cage.c lines 62-79): closes the read end (not
tracked here — the descriptor is gone either way once the loop stops),
sets `server->return_app_code = true` and calls
`wl_display_terminate`. -/
def sigchld_handler (s : LoopState) : LoopState :=
  { s with return_app_code := true, terminated := true }

/-- `handle_signal` (src/cage.c lines 187-201): SIGINT and SIGTERM call
`wl_display_terminate` and nothing else. -/
def handle_signal (s : LoopState) : LoopState :=
  { s with terminated := true }

/-- Dispatch of one loop event to its registered callback. -/
def dispatch (s : LoopState) : LoopEvent → LoopState
  | .pipeHangup => sigchld_handler s
  | .pipeError => sigchld_handler s
  | .sigInt => handle_signal s
  | .sigTerm => handle_signal s

/-- `wl_display_run` as seen by cage: the loop state after the given
sequence of callback invocations has been dispatched. -/
def wl_display_run (s : LoopState) : List LoopEvent → LoopState
  | [] => s
  | e :: es => wl_display_run (dispatch s e) es

/-- Run parameters of one execution of `main`: the outcomes of the
startup stages, the credentials the process started with, the spawn-call
outcomes, the callback invocations the loop performed before stopping,
and the wait status that `waitpid` reports at the final reap. -/
structure MainEnv where
  parseOk : Bool
  xdgRuntimeDirSet : Bool
  creds : Creds
  serverInitOk : Bool
  spawnEnv : SpawnEnv
  loopEvents : List LoopEvent
  childStatus : Nat
deriving Repr

/-- Milestones of `main`, in the order they happen. -/
inductive MainStep
  | startupFailure
  | spawnAttempt
  | loopRun
  | cleanupCall (pid : Nat)
  | teardown
deriving DecidableEq, Repr

/-- Result of one execution of `main`: the process exit code, the
milestones passed in order, and the final `server.return_app_code`. -/
structure MainResult where
  ret : Nat
  steps : List MainStep
  return_app_code : Bool
deriving DecidableEq, Repr

/-- `main` (src/cage.c lines 259-344). `pid` starts at 0 and `ret` at 0.
Failures of argument parsing, the `XDG_RUNTIME_DIR` check,
`drop_permissions` or `server_init` return 1 immediately. A spawn
failure sets `ret = 1` and jumps to `end`, skipping the loop; otherwise
the loop runs. At `end`, `cleanup_primary_client(pid)` is called
unconditionally with whatever `pid` holds, and its result becomes the
exit code only when `ret` is still 0 and `server.return_app_code` was
set. -/
def cageMain (env : MainEnv) : MainResult :=
  if ¬ env.parseOk then
    { ret := 1, steps := [.startupFailure], return_app_code := false }
  else if ¬ env.xdgRuntimeDirSet then
    { ret := 1, steps := [.startupFailure], return_app_code := false }
  else if ¬ (drop_permissions env.creds).1 then
    { ret := 1, steps := [.startupFailure], return_app_code := false }
  else if ¬ env.serverInitOk then
    { ret := 1, steps := [.startupFailure], return_app_code := false }
  else
    let sp := spawn_primary_client env.spawnEnv 0
    if ¬ sp.ok then
      { ret := 1, steps := [.spawnAttempt, .cleanupCall sp.pidOut, .teardown],
        return_app_code := false }
    else
      let final := wl_display_run ⟨false, false⟩ env.loopEvents
      let app_ret := cleanup_primary_client env.childStatus
      { ret := if final.return_app_code then app_ret else 0,
        steps := [.spawnAttempt, .loopRun, .cleanupCall sp.pidOut, .teardown],
        return_app_code := final.return_app_code }

/-- All startup stages of `main` up to and including the spawn succeed. -/
def startupOk (env : MainEnv) : Bool :=
  env.parseOk && env.xdgRuntimeDirSet && (drop_permissions env.creds).1 &&
    env.serverInitOk && (spawn_primary_client env.spawnEnv 0).ok

/-- The stages of `main` strictly before the spawn attempt succeed. -/
def preSpawnOk (env : MainEnv) : Bool :=
  env.parseOk && env.xdgRuntimeDirSet && (drop_permissions env.creds).1 &&
    env.serverInitOk

/-- Whether a child process was actually created by the spawn call. -/
def spawnedChild (env : SpawnEnv) : Bool :=
  (spawn_primary_client env 0).childAtFork.isSome

/-- Number of `cleanupCall` milestones in a step list. -/
def countCleanup (l : List MainStep) : Nat :=
  (l.filter fun s => match s with | .cleanupCall _ => true | _ => false).length

/-! ### Concrete run environments used as witnesses and counterexamples -/

/-- Credentials of a normal unprivileged invocation. -/
def credsNormal : Creds := ⟨1000, 1000, 1000, 1000, 1000, 1000⟩

/-- Credentials of a classic setuid-root, setgid-root invocation: real
ids 1000, effective and saved ids 0. -/
def setuidRootCreds : Creds := ⟨1000, 0, 0, 1000, 0, 0⟩

/-- Unprivileged credentials whose saved gid is 0, so that after the
(skipped) drop the process can still regain gid 0. -/
def savedRootGidCreds : Creds := ⟨1000, 1000, 0, 1000, 1000, 0⟩

/-- A spawn in which every fallible call succeeds; the fork returns
child pid 5. -/
def spawnEnvOk : SpawnEnv := ⟨true, .forked 5, true, true, true⟩

/-- A spawn in which `pipe` itself fails: no fork ever happens. -/
def spawnEnvPipeFail : SpawnEnv := ⟨false, .failed, true, true, true⟩

/-- A run in which startup succeeds, the child exits normally with code
7, and the loop stops because the death-pipe closure callback ran. -/
def envChildExit7 : MainEnv :=
  { parseOk := true, xdgRuntimeDirSet := true, creds := credsNormal,
    serverInitOk := true, spawnEnv := spawnEnvOk,
    loopEvents := [.pipeHangup], childStatus := exitStatus 7 }

/-- A run in which startup succeeds but the loop is stopped by SIGINT
before the child has exited (no pipe callback ever ran); the child later
exits with code 7 and is reaped by the blocking `waitpid`. -/
def envSigInt : MainEnv :=
  { envChildExit7 with loopEvents := [.sigInt] }

/-- A run in which a SIGTERM callback and the death-pipe callback both
run before the loop stops (signal delivered first), and the child was
killed by signal 9. -/
def envChildKilled9 : MainEnv :=
  { envChildExit7 with
    loopEvents := [.sigTerm, .pipeHangup],
    childStatus := signalStatus 9 }

/-- A run in which pipe creation fails, so the spawn fails before any
child exists. -/
def envPipeFailNoChild : MainEnv :=
  { envChildExit7 with spawnEnv := spawnEnvPipeFail }

/-- A run that fails at argument parsing. -/
def envParseFail : MainEnv :=
  { envChildExit7 with parseOk := false }

/-! ## Theorems for the claims -/

/-- C2: for every reaped child, the exit-status translation of
`cleanup_primary_client` yields the child's own exit status unchanged
when the child exited normally, and 128 plus the signal number when the
child was terminated by an uncaught signal. -/
theorem statusTranslation :
    (∀ n, n < 256 → cleanup_primary_client (exitStatus n) = n) ∧
    (∀ s, s < 127 → 1 ≤ s → cleanup_primary_client (signalStatus s) = 128 + s) :=
  ⟨cleanup_exit_all, cleanup_signal_all⟩

/-- Witness for C2: a child exiting with code 7 translates to 7, a child
killed by signal 9 translates to 137. -/
theorem statusTranslation_witness :
    cleanup_primary_client (exitStatus 7) = 7 ∧
    cleanup_primary_client (signalStatus 9) = 128 + 9 :=
  ⟨statusTranslation.1 7 (by decide), statusTranslation.2 9 (by decide) (by decide)⟩

/-- C9: for every reaped status that represents neither a normal exit
nor death by signal, `cleanup_primary_client` returns 0; such statuses
are exactly those whose low seven bits are all ones (the
stopped/continued encodings). -/
theorem translatorDefaultZero (s : Nat)
    (h1 : wIFEXITED s = false) (h2 : wIFSIGNALED s = false) :
    cleanup_primary_client s = 0 ∧ s &&& 0x7f = 127 := by
  constructor
  · simp [cleanup_primary_client, h1, h2]
  · have hb : s &&& 0x7f < 128 := Nat.lt_succ_of_le Nat.and_le_right
    have h1' : ((s &&& 0x7f) == 0) = false := h1
    have h2' : decide (0 < (signedChar ((s &&& 0x7f) + 1)).fdiv 2) = false := h2
    exact low7_not_exited_not_signaled (s &&& 0x7f) hb h1' h2'

/-- Witness for C9: the stopped-child status 0x7f is translated to 0. -/
theorem translatorDefaultZero_witness :
    cleanup_primary_client 0x7f = 0 ∧ 0x7f &&& 0x7f = 127 :=
  translatorDefaultZero 0x7f (by decide) (by decide)

/-- Counterexample for C4: on a classic setuid-root invocation (real ids
1000, effective and saved ids root), `drop_permissions` returns true
(startup is allowed), and it mutates the process credentials — it drops
privileges rather than failing closed, contrary to the claim that such
an invocation is denied with no side effects. -/
theorem privilegeGuardCounterexample :
    (drop_permissions setuidRootCreds).1 = true ∧
    setuidRootCreds.euid = 0 ∧ setuidRootCreds.ruid ≠ 0 ∧
    (drop_permissions setuidRootCreds).2 ≠ setuidRootCreds := by
  decide

/-- C4 (amended): the guard allows a real-root invocation outright; a
normal unprivileged invocation is always allowed and leaves the
credentials unchanged; a setuid-root invocation is not denied — the
guard drops to the real identity and then allows startup; and when the
guard does deny, `main` aborts with exit code 1 before any spawn. -/
theorem privilegeGuardBehavior (c : Creds) :
    (c.ruid = 0 → drop_permissions c = (true, c)) ∧
    (c.ruid ≠ 0 → c.rgid ≠ 0 → c.euid = c.ruid → c.egid = c.rgid →
      c.suid = c.ruid → c.sgid = c.rgid → drop_permissions c = (true, c)) ∧
    (c.ruid ≠ 0 → c.rgid ≠ 0 → c.euid = 0 →
      drop_permissions c = (true, ⟨c.ruid, c.ruid, c.ruid, c.rgid, c.rgid, c.rgid⟩)) ∧
    (∀ env : MainEnv, env.creds = c → (drop_permissions c).1 = false →
      env.parseOk = true → env.xdgRuntimeDirSet = true →
      (cageMain env).ret = 1 ∧ (cageMain env).steps = [.startupFailure]) := by
  obtain ⟨ru, eu, su, rg, eg, sg⟩ := c
  refine ⟨?_, ?_, ?_, ?_⟩
  · intro h
    simp only at h
    simp [drop_permissions, h]
  · intro h1 h2 he hg hsu hsg
    simp only at h1 h2 he hg hsu hsg
    subst he; subst hg; subst hsu; subst hsg
    simp [drop_permissions, restoreRootCheck, sys_setgid, sys_setuid,
      h1, h2, Ne.symm h1, Ne.symm h2]
  · intro h1 h2 he
    simp only at h1 h2 he
    subst he
    simp [drop_permissions, restoreRootCheck, sys_setgid, sys_setuid,
      h1, h2, Ne.symm h1, Ne.symm h2]
  · intro env hc hf hp hx
    simp [cageMain, hp, hx, hc, hf]

/-- Witness for C4: a normal unprivileged invocation is allowed
unchanged; the setuid-root invocation is allowed after dropping to the
real identity; a denial (here: saved gid 0 lets the process regain
gid 0) makes `main` abort with code 1 before spawning. -/
theorem privilegeGuardBehavior_witness :
    drop_permissions credsNormal = (true, credsNormal) ∧
    drop_permissions setuidRootCreds = (true, credsNormal) ∧
    ((cageMain { envChildExit7 with creds := savedRootGidCreds }).ret = 1 ∧
     (cageMain { envChildExit7 with creds := savedRootGidCreds }).steps = [.startupFailure]) :=
  ⟨(privilegeGuardBehavior credsNormal).2.1 (by decide) (by decide) rfl rfl rfl rfl,
   (privilegeGuardBehavior setuidRootCreds).2.2.1 (by decide) (by decide) rfl,
   (privilegeGuardBehavior savedRootGidCreds).2.2.2
     { envChildExit7 with creds := savedRootGidCreds } rfl (by decide) rfl rfl⟩

/-- Counterexample for C6: in a fully successful spawn, the parent's
trace marks the descriptors close-on-exec only at positions 3 and 4,
strictly after the `fork` at position 1 — not before the fork as
claimed; the table the child inherits at fork has the flag clear on both
ends, so the child branch has no flag to clear (and clears none); and
since the child's write end is never flagged, the image replacement
keeps it and a grandchild's exec (a second `execFilter`) would inherit
it too, contrary to the claimed grandchild protection. -/
theorem cloexecBeforeForkCounterexample :
    (spawn_primary_client spawnEnvOk 0).trace =
      [.pipeCreate, .forkCall, .recordPid 5, .setCloexecRead, .setCloexecWrite,
       .closeWriteEnd, .registerReadFd] ∧
    (spawn_primary_client spawnEnvOk 0).childAtFork =
      some ⟨.opened false, .opened false⟩ ∧
    (childRun ⟨.opened false, .opened false⟩ true).1 =
      .execed ⟨.closed, .opened false⟩ ∧
    execFilter ⟨.closed, .opened false⟩ = ⟨.closed, .opened false⟩ := by
  decide

/-- C6 (amended): the close-on-exec flags are set on both pipe ends in
the parent branch only, after a successful fork; the child's inherited
copies are never flagged and the child branch only closes the read end,
so after spawn the parent's table holds only the read end and the
child's post-exec table holds only the write end — which, being
unflagged, remains inheritable by grandchildren. -/
theorem pipeDescriptorDiscipline (env : SpawnEnv) (pid : Nat)
    (hp : env.pipeOk = true) (hf : env.forkRes = .forked pid)
    (hr : env.cloexecReadOk = true) (hw : env.cloexecWriteOk = true) :
    (spawn_primary_client env 0).trace =
      [.pipeCreate, .forkCall, .recordPid pid, .setCloexecRead, .setCloexecWrite,
       .closeWriteEnd, .registerReadFd] ∧
    (spawn_primary_client env 0).childAtFork =
      some ⟨.opened false, .opened false⟩ ∧
    (spawn_primary_client env 0).parentFds = ⟨.opened true, .closed⟩ ∧
    (env.execOk = true →
      (childRun ⟨.opened false, .opened false⟩ env.execOk).1 =
        .execed ⟨.closed, .opened false⟩) := by
  cases hx : env.execOk <;>
    simp [spawn_primary_client, set_cloexec, childRun, execFilter, execFilterFd,
      hp, hf, hr, hw, hx]

/-- Witness for C6 (amended) at the fully successful spawn. -/
theorem pipeDescriptorDiscipline_witness :
    (spawn_primary_client spawnEnvOk 0).parentFds = ⟨.opened true, .closed⟩ ∧
    (childRun ⟨.opened false, .opened false⟩ spawnEnvOk.execOk).1 =
      .execed ⟨.closed, .opened false⟩ :=
  ⟨(pipeDescriptorDiscipline spawnEnvOk 5 rfl rfl rfl rfl).2.2.1,
   (pipeDescriptorDiscipline spawnEnvOk 5 rfl rfl rfl rfl).2.2.2 rfl⟩

/-- C7: the child branch clears the inherited blocked-signal mask and
closes the pipe's read end before the image replacement; if the
replacement fails, the child logs the failure and terminates at once via
`_exit` with the distinguished status 1 — its outcome is `exited 1`,
never a return into the supervisor's code path. -/
theorem childBranchBehavior (fds : PipeFds) (execOk : Bool) :
    (childRun fds execOk).2.take 3 = [.clearSigMask, .closeReadEnd, .execCall] ∧
    (execOk = false →
      (childRun fds execOk).1 = .exited 1 ∧
      (childRun fds execOk).2 =
        [.clearSigMask, .closeReadEnd, .execCall, .logErrno, .exitCall 1]) ∧
    (execOk = true →
      (childRun fds execOk).1 = .execed (execFilter ⟨.closed, fds.writeEnd⟩)) := by
  cases execOk <;> simp [childRun]

/-- Witness for C7 at a failing exec. -/
theorem childBranchBehavior_witness :
    (childRun ⟨.opened false, .opened false⟩ false).1 = .exited 1 ∧
    (childRun ⟨.opened false, .opened false⟩ false).2 =
      [.clearSigMask, .closeReadEnd, .execCall, .logErrno, .exitCall 1] :=
  (childBranchBehavior ⟨.opened false, .opened false⟩ false).2.1 rfl

/-- C8: in the parent branch the child pid is written through `pid_out`
immediately after a successful fork — the trace begins
`pipe, fork, recordPid` — before any descriptor-flag validation, so
every later parent-side failure still leaves the pid available to the
shutdown path; the write end is closed and the read end registered only
when both `set_cloexec` calls succeeded. -/
theorem parentBranchOrdering (env : SpawnEnv) (pid pidIn : Nat)
    (hp : env.pipeOk = true) (hf : env.forkRes = .forked pid) :
    (spawn_primary_client env pidIn).pidOut = pid ∧
    (spawn_primary_client env pidIn).trace.take 3 =
      [.pipeCreate, .forkCall, .recordPid pid] ∧
    (¬ (env.cloexecReadOk = true ∧ env.cloexecWriteOk = true) →
      SpawnAction.closeWriteEnd ∉ (spawn_primary_client env pidIn).trace ∧
      SpawnAction.registerReadFd ∉ (spawn_primary_client env pidIn).trace ∧
      (spawn_primary_client env pidIn).ok = false) ∧
    (env.cloexecReadOk = true → env.cloexecWriteOk = true →
      (spawn_primary_client env pidIn).trace =
        [.pipeCreate, .forkCall, .recordPid pid, .setCloexecRead, .setCloexecWrite,
         .closeWriteEnd, .registerReadFd]) := by
  cases hr : env.cloexecReadOk <;> cases hw : env.cloexecWriteOk <;>
    simp [spawn_primary_client, set_cloexec, hp, hf, hr, hw]

/-- Witness for C8: with the read-end `fcntl` failing, the pid is still
recorded and the spawn reports failure without close or registration. -/
theorem parentBranchOrdering_witness :
    (spawn_primary_client ⟨true, .forked 5, false, true, true⟩ 0).pidOut = 5 ∧
    (spawn_primary_client ⟨true, .forked 5, false, true, true⟩ 0).ok = false :=
  ⟨(parentBranchOrdering ⟨true, .forked 5, false, true, true⟩ 5 0 rfl rfl).1,
   ((parentBranchOrdering ⟨true, .forked 5, false, true, true⟩ 5 0 rfl rfl).2.2.1
     (by decide)).2.2⟩

/-- C10: if either `set_cloexec` call fails in the parent after a
successful fork, the spawn returns failure while the parent's
descriptor table still holds both pipe ends open — the write end was not
closed and the read end was not registered with the event loop. -/
theorem cloexecFailureFrame (env : SpawnEnv) (pid pidIn : Nat)
    (hp : env.pipeOk = true) (hf : env.forkRes = .forked pid)
    (hfail : env.cloexecReadOk = false ∨ env.cloexecWriteOk = false) :
    (spawn_primary_client env pidIn).ok = false ∧
    (spawn_primary_client env pidIn).parentFds.readEnd.isOpen = true ∧
    (spawn_primary_client env pidIn).parentFds.writeEnd = .opened false ∧
    SpawnAction.closeWriteEnd ∉ (spawn_primary_client env pidIn).trace ∧
    SpawnAction.registerReadFd ∉ (spawn_primary_client env pidIn).trace := by
  cases hr : env.cloexecReadOk <;> cases hw : env.cloexecWriteOk <;>
    simp_all [spawn_primary_client, set_cloexec, FdState.isOpen]

/-- Witness for C10 at a spawn whose read-end `fcntl` fails. -/
theorem cloexecFailureFrame_witness :
    (spawn_primary_client ⟨true, .forked 5, false, true, true⟩ 0).ok = false ∧
    (spawn_primary_client ⟨true, .forked 5, false, true, true⟩ 0).parentFds.readEnd.isOpen = true ∧
    (spawn_primary_client ⟨true, .forked 5, false, true, true⟩ 0).parentFds.writeEnd = .opened false ∧
    SpawnAction.closeWriteEnd ∉ (spawn_primary_client ⟨true, .forked 5, false, true, true⟩ 0).trace ∧
    SpawnAction.registerReadFd ∉ (spawn_primary_client ⟨true, .forked 5, false, true, true⟩ 0).trace :=
  cloexecFailureFrame ⟨true, .forked 5, false, true, true⟩ 5 0 rfl rfl (Or.inl rfl)

/-- Once `return_app_code` is set, no further callback invocation can
clear it: `sigchld_handler` sets it and `handle_signal` leaves it
untouched. -/
lemma run_return_app_code_mono (events : List LoopEvent) :
    ∀ s : LoopState, s.return_app_code = true →
      (wl_display_run s events).return_app_code = true := by
  induction events with
  | nil => intro s h; exact h
  | cons e es ih =>
      intro s h
      have hd : (dispatch s e).return_app_code = true := by
        cases e <;> simp [dispatch, sigchld_handler, handle_signal, h]
      exact ih _ hd

/-- C1: when startup succeeds through the spawn, the death-pipe closure
callback ran before the loop stopped (setting `return_app_code`), and
the child exited normally with status `n < 256`, the final exit code is
`n`; when the flag was not set the final code is 0; and on any startup
failure (including a failed spawn) the final code is 1. -/
theorem exitCodePolicy (env : MainEnv) (n : Nat) :
    (startupOk env = true →
      (wl_display_run ⟨false, false⟩ env.loopEvents).return_app_code = true →
      n < 256 → env.childStatus = exitStatus n →
      (cageMain env).ret = n) ∧
    (startupOk env = true →
      (wl_display_run ⟨false, false⟩ env.loopEvents).return_app_code = false →
      (cageMain env).ret = 0) ∧
    (startupOk env = false → (cageMain env).ret = 1) := by
  refine ⟨?_, ?_, ?_⟩
  · intro hs hflag hn hcs
    obtain ⟨⟨⟨⟨h1, h2⟩, h3⟩, h4⟩, h5⟩ := by
      simpa [startupOk, Bool.and_eq_true] using hs
    have ht := cleanup_exit_all n hn
    simp [cageMain, h1, h2, h3, h4, h5, hflag, hcs, ht]
  · intro hs hflag
    obtain ⟨⟨⟨⟨h1, h2⟩, h3⟩, h4⟩, h5⟩ := by
      simpa [startupOk, Bool.and_eq_true] using hs
    simp [cageMain, h1, h2, h3, h4, h5, hflag]
  · intro hs
    by_cases h1 : env.parseOk = true
    · by_cases h2 : env.xdgRuntimeDirSet = true
      · by_cases h3 : (drop_permissions env.creds).1 = true
        · by_cases h4 : env.serverInitOk = true
          · have h5 : (spawn_primary_client env.spawnEnv 0).ok = false := by
              simpa [startupOk, h1, h2, h3, h4] using hs
            simp [cageMain, h1, h2, h3, h4, h5]
          · simp [cageMain, h1, h2, h3, h4]
        · simp [cageMain, h1, h2, h3]
      · simp [cageMain, h1, h2]
    · simp [cageMain, h1]

/-- Witness for C1: a run whose child exits 7 and whose loop stopped via
the pipe callback exits 7; a run stopped by SIGINT exits 0; a run whose
pipe creation failed exits 1. -/
theorem exitCodePolicy_witness :
    (cageMain envChildExit7).ret = 7 ∧
    (cageMain envSigInt).ret = 0 ∧
    (cageMain envPipeFailNoChild).ret = 1 :=
  ⟨(exitCodePolicy envChildExit7 7).1 (by decide) (by decide) (by decide) rfl,
   (exitCodePolicy envSigInt 0).2.1 (by decide) (by decide),
   (exitCodePolicy envPipeFailNoChild 0).2.2 (by decide)⟩

/-- Counterexample for C3: in a run where SIGINT stops the loop strictly
before the child has exited (the only callback invocation is the signal
one, the pipe callback never ran), the final exit code is 0 even though
the child's eventual reaped status translates to 7 — the final code does
not equal the child's translated status, contrary to the claim's first
part. -/
theorem signalBeforeExitCounterexample :
    envSigInt.loopEvents = [.sigInt] ∧
    (cageMain envSigInt).ret = 0 ∧
    cleanup_primary_client envSigInt.childStatus = 7 ∧
    (cageMain envSigInt).ret ≠ cleanup_primary_client envSigInt.childStatus := by
  decide

/-- C3 (amended): once the death-pipe closure callback has set
`return_app_code`, no later callback invocation changes that decision,
and the final exit code is the child's translated status (never a
synthetic signal code); but when a termination signal stops the loop
before the pipe closure was observed, the final exit code is the
supervisor's own 0, not the child's translated status. -/
theorem exitCodeSourceDecision (env : MainEnv) (s : LoopState)
    (events : List LoopEvent) :
    (s.return_app_code = true →
      (wl_display_run s events).return_app_code = true) ∧
    (startupOk env = true →
      (wl_display_run ⟨false, false⟩ env.loopEvents).return_app_code = true →
      (cageMain env).ret = cleanup_primary_client env.childStatus) ∧
    (startupOk env = true →
      (wl_display_run ⟨false, false⟩ env.loopEvents).return_app_code = false →
      (cageMain env).ret = 0) := by
  refine ⟨run_return_app_code_mono events s, ?_, ?_⟩
  · intro hs hflag
    obtain ⟨⟨⟨⟨h1, h2⟩, h3⟩, h4⟩, h5⟩ := by
      simpa [startupOk, Bool.and_eq_true] using hs
    simp [cageMain, h1, h2, h3, h4, h5, hflag]
  · intro hs hflag
    obtain ⟨⟨⟨⟨h1, h2⟩, h3⟩, h4⟩, h5⟩ := by
      simpa [startupOk, Bool.and_eq_true] using hs
    simp [cageMain, h1, h2, h3, h4, h5, hflag]

/-- Witness for C3 (amended): with SIGTERM delivered before the pipe
callback in the same run, the flag still ends up set and the final exit
code is the translated status of the signal-killed child, 137. -/
theorem exitCodeSourceDecision_witness :
    (wl_display_run ⟨true, false⟩ [.sigInt, .sigTerm]).return_app_code = true ∧
    (cageMain envChildKilled9).ret = 137 :=
  ⟨(exitCodeSourceDecision envChildKilled9 ⟨true, false⟩ [.sigInt, .sigTerm]).1 rfl,
   ((exitCodeSourceDecision envChildKilled9 ⟨true, false⟩ []).2.1
     (by decide) (by decide)).trans (by decide)⟩

/-- Counterexample for C5: in a run whose pipe creation fails, no child
is ever spawned, yet the blocking reap helper is still invoked — with
pid 0, the never-written initial value — contrary to the claim that it
is invoked only if a child process was actually spawned. -/
theorem reapWithoutChildCounterexample :
    spawnedChild envPipeFailNoChild.spawnEnv = false ∧
    (cageMain envPipeFailNoChild).steps =
      [.spawnAttempt, .cleanupCall 0, .teardown] ∧
    countCleanup (cageMain envPipeFailNoChild).steps = 1 := by
  decide

/-- C5 (amended): in every run that passes the pre-spawn startup stages,
the blocking reap helper is invoked exactly once, after the event loop
stopped (or directly after a failed spawn skipped the loop), whether or
not a child was actually spawned; after a pre-fork spawn failure it is
invoked with pid 0 rather than a child identifier. Runs that fail an
earlier startup stage never invoke it. -/
theorem reapInvocation (env : MainEnv) :
    (preSpawnOk env = true →
      countCleanup (cageMain env).steps = 1 ∧
      ((spawn_primary_client env.spawnEnv 0).ok = true →
        (cageMain env).steps =
          [.spawnAttempt, .loopRun,
           .cleanupCall (spawn_primary_client env.spawnEnv 0).pidOut, .teardown]) ∧
      ((spawn_primary_client env.spawnEnv 0).ok = false →
        (cageMain env).steps =
          [.spawnAttempt,
           .cleanupCall (spawn_primary_client env.spawnEnv 0).pidOut, .teardown]) ∧
      (env.spawnEnv.pipeOk = false →
        MainStep.cleanupCall 0 ∈ (cageMain env).steps)) ∧
    (preSpawnOk env = false → countCleanup (cageMain env).steps = 0) := by
  constructor
  · intro hs
    obtain ⟨⟨⟨h1, h2⟩, h3⟩, h4⟩ := by
      simpa [preSpawnOk, Bool.and_eq_true] using hs
    by_cases h5 : (spawn_primary_client env.spawnEnv 0).ok = true
    · refine ⟨?_, ?_, ?_, ?_⟩
      · simp [cageMain, h1, h2, h3, h4, h5, countCleanup]
      · intro; simp [cageMain, h1, h2, h3, h4, h5]
      · intro hc; simp [h5] at hc
      · intro hpipe
        have hko : (spawn_primary_client env.spawnEnv 0).ok = false := by
          simp [spawn_primary_client, hpipe]
        simp [hko] at h5
    · have h5' : (spawn_primary_client env.spawnEnv 0).ok = false :=
        Bool.not_eq_true _ ▸ eq_false_of_ne_true h5
      refine ⟨?_, ?_, ?_, ?_⟩
      · simp [cageMain, h1, h2, h3, h4, h5', countCleanup]
      · intro hc; simp [h5'] at hc
      · intro; simp [cageMain, h1, h2, h3, h4, h5']
      · intro hpipe
        have hpid : (spawn_primary_client env.spawnEnv 0).pidOut = 0 := by
          simp [spawn_primary_client, hpipe]
        simp [cageMain, h1, h2, h3, h4, h5', hpid]
  · intro hs
    by_cases h1 : env.parseOk = true
    · by_cases h2 : env.xdgRuntimeDirSet = true
      · by_cases h3 : (drop_permissions env.creds).1 = true
        · have h4 : env.serverInitOk = false := by
            simpa [preSpawnOk, h1, h2, h3] using hs
          simp [cageMain, h1, h2, h3, h4, countCleanup]
        · simp [cageMain, h1, h2, h3, countCleanup]
      · simp [cageMain, h1, h2, countCleanup]
    · simp [cageMain, h1, countCleanup]

/-- Witness for C5 (amended): the successful run reaps exactly once
after the loop; the pipe-failure run still contains a reap call with
pid 0; the parse-failure run contains none. -/
theorem reapInvocation_witness :
    countCleanup (cageMain envChildExit7).steps = 1 ∧
    MainStep.cleanupCall 0 ∈ (cageMain envPipeFailNoChild).steps ∧
    countCleanup (cageMain envParseFail).steps = 0 :=
  ⟨((reapInvocation envChildExit7).1 (by decide)).1,
   ((reapInvocation envPipeFailNoChild).1 (by decide)).2.2.2 rfl,
   (reapInvocation envParseFail).2 (by decide)⟩

end Cage
